import Mathlib

/-!
Shallow embedding of the cook-mcp-server repository (Python) in Lean 4.

The repository exposes a 150-page engineering handbook through two tools,
`search_engineering_manual` and `get_page_direct`, in five transport
variants:

* `src/mcp_cook_server.py`         — plain stdio MCP server (`cook*` defs);
* `src/mcp_cook_server_with_qa.py` — stdio server using a QueryAgent (`withQa*`);
* `src/mcp_server_sse.py`          — FastMCP/SSE server plus REST endpoints (`sse*`);
* `src/mcp_server_authenticated.py`— FastAPI server with Clerk helpers (`auth*`);
* `src/mcp_server_oauth.py`        — FastMCP server with OAuth settings (`oauth*`).

External collaborators (the Weaviate document store, the QueryAgent and the
OpenAI completion service) are modelled as function parameters; every piece
of in-repository control flow and string formatting is translated directly
from the Python source.  Effects on the external services are made explicit:
each operation additionally reports how many document-store queries and how
many Answer-Synthesizer (OpenAI chat-completion) calls it issued.
-/

set_option autoImplicit false

/-- One indexed chunk of the manual, as stored in the
`Cook_Engineering_Manual` Weaviate collection.  The Python property
`section` is spelled `sect` here because `section` is a Lean keyword. -/
structure PageRecord where
  content : String
  sect : String
  page : Int
  content_type : String
  has_critical_visual : Bool
  visual_content : String
  visual_description : String
  deriving Repr, DecidableEq

/-- A content block of an MCP tool result: `TextContent` or `ImageContent`
from `mcp.types` (an image block carries base64 data and a mime type). -/
inductive ContentBlock where
  | text (txt : String)
  | image (data : String) (mimeType : String)
  deriving Repr, DecidableEq

/-- One part of the user message sent to the completion service:
a `{"type": "text"}` part or a `{"type": "image_url"}` part. -/
inductive MsgPart where
  | text (txt : String)
  | imageUrl (url : String) (detail : String)
  deriving Repr, DecidableEq

/-- One chat-completion request as assembled by the servers: the fixed
system message, the user content parts, and the `max_tokens` bound. -/
structure SynthCall where
  systemMsg : String
  userContent : List MsgPart
  maxTokens : Nat
  deriving Repr, DecidableEq

/-- Modelled from the spec: the Answer Synthesizer (the OpenAI
chat-completion client, external to the repository) either returns answer
text or raises an exception carrying a message. -/
def Synth : Type := SynthCall → Except String String

/-- Modelled from the spec: the external document store, reduced to the two
query shapes the repository uses — `rank q` is the full similarity ranking
`near_text` draws from for query `q`, and `byPage n` is the list of records
whose `page` property equals `n`, in store order. -/
structure Store where
  rank : String → List PageRecord
  byPage : Int → List PageRecord

/-- Modelled from the spec: `collection.query.near_text(query=q, limit=k)` —
the store honours its `limit` argument, returning the first `k` ranked
records. -/
def nearText (store : Store) (q : String) (limit : Nat) : List PageRecord :=
  (store.rank q).take limit

/-- Modelled from the spec: `collection.query.fetch_objects(filters=page==n,
limit=k)` — the exact-match filter query, capped at `k` records. -/
def fetchByPage (store : Store) (n : Int) (limit : Nat) : List PageRecord :=
  (store.byPage n).take limit

/-- Python `s[:n]`: the first at most `n` characters of `s`. -/
def pySlice (s : String) (n : Nat) : String :=
  String.mk (s.data.take n)

/-- The fixed no-results sentinel shared by the search variants. -/
def sentinelNoResults : String :=
  "No relevant information found in the engineering manual for your query."

/-- `f"[{props['section']} - Page {props['page']}]\n{props['content'][:500]}..."` —
one supporting-context fragment (identical in all non-QA search variants). -/
def contextFragment (r : PageRecord) : String :=
  "[" ++ r.sect ++ " - Page " ++ toString r.page ++ "]\n" ++
    pySlice r.content 500 ++ "..."

/-- The `text_context` list built from the matched records, in match order. -/
def textContext (objs : List PageRecord) : List String :=
  objs.map contextFragment

/-- `f"Found relevant information on pages: {', '.join(map(str, pages_found))}"`. -/
def initialSummary (objs : List PageRecord) : String :=
  "Found relevant information on pages: " ++
    String.intercalate ", " (objs.map (fun r => toString r.page))

/-- The text part of the user message in `mcp_cook_server.py`,
`mcp_server_sse.py`, `mcp_server_authenticated.py` and
`mcp_server_oauth.py` (they share this template verbatim). -/
def searchUserText (question : String) (objs : List PageRecord) : String :=
  "You are a technical assistant helping with engineering specifications.\n\n" ++
  "Question: " ++ question ++ "\n\n" ++
  "Initial analysis from search system:\n" ++ initialSummary objs ++ "\n\n" ++
  "Additional context from relevant sections:\n" ++
  String.intercalate "\n" (textContext objs) ++ "\n\n" ++
  "Please provide a comprehensive answer. If images are provided, carefully examine them for specific information like maps, charts, or diagrams that may contain data not in the text."

/-- The `image_url` parts appended for every matched record with
`has_critical_visual` truthy, in match order. -/
def imageParts (objs : List PageRecord) : List MsgPart :=
  (objs.filter (fun r => r.has_critical_visual)).map
    (fun r => MsgPart.imageUrl ("data:image/png;base64," ++ r.visual_content) "high")

/-- The `message_content` list: the text part followed by the image parts. -/
def searchMessageContent (question : String) (objs : List PageRecord) : List MsgPart :=
  MsgPart.text (searchUserText question objs) :: imageParts objs

/-- The system message shared by the four non-QA search variants. -/
def searchSystemMsg : String :=
  "You are a technical assistant. When images are provided, examine them carefully for specific information like locations on maps, values in charts, or specifications in tables."

/-- The complete chat-completion request the non-QA search variants submit. -/
def searchSynthCall (question : String) (objs : List PageRecord) : SynthCall :=
  { systemMsg := searchSystemMsg
    userContent := searchMessageContent question objs
    maxTokens := 1500 }

/-- Result of one `call_tool` invocation on a stdio server: either the list
of returned content blocks, or the message of the exception it raised. -/
inductive ToolResult where
  | ok (blocks : List ContentBlock)
  | raises (msg : String)
  deriving Repr, DecidableEq

/-- Outcome of one `call_tool` invocation on a stdio server: the returned
content blocks (or the message of the exception it raised), together with
the number of document-store queries and of Answer-Synthesizer calls made. -/
structure CallOutcome where
  result : ToolResult
  storeQueries : Nat
  synthCalls : Nat
  deriving Repr, DecidableEq

/-- The `arguments` dict of a tool call / the JSON body of a POST request:
the two keys the servers read, each possibly absent. -/
structure Arguments where
  query : Option String
  page_number : Option Int
  deriving Repr, DecidableEq

/-- `search_engineering_manual` branch of `call_tool` in
`src/mcp_cook_server.py` (lines 97–191): `near_text` with `limit=5`; on an
empty result the sentinel is returned without calling the synthesizer;
otherwise the prompt is assembled, the completion call is made inside
`try`, an exception is converted to the fail-soft text, and a single
`TextContent` block is returned. -/
def cookSearch (store : Store) (synth : Synth) (question : String) : CallOutcome :=
  let full_objects := nearText store question 5
  if full_objects.isEmpty then
    { result := ToolResult.ok [ContentBlock.text sentinelNoResults]
      storeQueries := 1, synthCalls := 0 }
  else
    let final_answer :=
      match synth (searchSynthCall question full_objects) with
      | Except.ok ans => ans
      | Except.error e =>
          "Error calling vision model: " ++ e ++
            "\n\nPlease check your OpenAI API key and connection."
    { result := ToolResult.ok [ContentBlock.text final_answer]
      storeQueries := 1, synthCalls := 1 }

/-- `get_page_direct` branch of `call_tool` in `src/mcp_cook_server.py`
(lines 193–231): exact-match fetch with `limit=10`; the no-content message
on an empty result; otherwise the `Content from Page N:` text followed by
one image block per record with `has_critical_visual` truthy. -/
def cookGetPage (store : Store) (page_number : Int) : CallOutcome :=
  let objs := fetchByPage store page_number 10
  if objs.isEmpty then
    { result := ToolResult.ok [ContentBlock.text
        ("No content found for page " ++ toString page_number ++
          ". The manual contains pages 1-150.")]
      storeQueries := 1, synthCalls := 0 }
  else
    let page_content := objs.map (fun r => "[" ++ r.sect ++ "]\n\n" ++ r.content)
    let text_response :=
      "Content from Page " ++ toString page_number ++ ":\n\n" ++
        String.intercalate "\n\n---\n\n" page_content
    let images := (objs.filter (fun r => r.has_critical_visual)).map
      (fun r => ContentBlock.image r.visual_content "image/png")
    { result := ToolResult.ok (ContentBlock.text text_response :: images)
      storeQueries := 1, synthCalls := 0 }

/-- `call_tool` dispatcher of `src/mcp_cook_server.py` (lines 93–233).
A missing dict key raises `KeyError`; an unknown tool name raises
`ValueError(f"Unknown tool: {name}")`. -/
def cookCallTool (store : Store) (synth : Synth)
    (name : String) (arguments : Arguments) : CallOutcome :=
  if name = "search_engineering_manual" then
    match arguments.query with
    | some q => cookSearch store synth q
    | none => { result := ToolResult.raises "KeyError: query", storeQueries := 0, synthCalls := 0 }
  else if name = "get_page_direct" then
    match arguments.page_number with
    | some n => cookGetPage store n
    | none => { result := ToolResult.raises "KeyError: page_number", storeQueries := 0, synthCalls := 0 }
  else
    { result := ToolResult.raises ("Unknown tool: " ++ name)
      storeQueries := 0, synthCalls := 0 }

/-- The response of the external QueryAgent (`qa.ask` in
`mcp_cook_server_with_qa.py`): the source object ids and the agent's own
final answer (Modelled from the spec: the `weaviate_agents` QueryAgent is
an external managed service). -/
structure QaResponse where
  sources : List Nat
  final_answer : String
  deriving Repr, DecidableEq

/-- The text part of the user message in `mcp_cook_server_with_qa.py`
(lines 119–127). -/
def withQaUserText (query : String) (qaAnswer : String) (objs : List PageRecord) : String :=
  "Question: " ++ query ++ "\n\n" ++
  "Initial search results:\n" ++ qaAnswer ++ "\n\n" ++
  "Additional context:\n" ++ String.intercalate "\n" (textContext objs) ++ "\n\n" ++
  "Please provide a comprehensive answer. Examine any images carefully for maps, charts, or diagrams."

/-- The chat-completion request submitted by the QA stdio variant. -/
def withQaSynthCall (query : String) (qaAnswer : String) (objs : List PageRecord) : SynthCall :=
  { systemMsg := "You are a technical assistant. Examine images carefully for specific information."
    userContent := MsgPart.text (withQaUserText query qaAnswer objs) :: imageParts objs
    maxTokens := 1500 }

/-- The `ImageContent` blocks appended to a result for every record with
`has_critical_visual` truthy, in order. -/
def resultImages (objs : List PageRecord) : List ContentBlock :=
  (objs.filter (fun r => r.has_critical_visual)).map
    (fun r => ContentBlock.image r.visual_content "image/png")

/-- `search_engineering_manual` branch of `call_tool` in
`src/mcp_cook_server_with_qa.py` (lines 76–176): the QueryAgent is asked,
full objects are fetched by id (a fetch failure is logged and the record
skipped, modelled by `Option`); when some fetched record has a critical
visual the vision call is made (not wrapped in `try`, so an exception
propagates) and the answer text block is followed by the image blocks;
otherwise the QueryAgent's own answer is returned as a single text block
with no completion call. -/
def withQaSearch (fetchById : Nat → Option PageRecord) (qa : String → QaResponse)
    (synth : Synth) (query : String) : CallOutcome :=
  let qaResp := qa query
  let full_objects := qaResp.sources.filterMap fetchById
  let has_images := full_objects.any (fun r => r.has_critical_visual)
  if has_images then
    match synth (withQaSynthCall query qaResp.final_answer full_objects) with
    | Except.ok final_answer =>
        { result := ToolResult.ok
            (ContentBlock.text final_answer :: resultImages full_objects)
          storeQueries := qaResp.sources.length, synthCalls := 1 }
    | Except.error e =>
        { result := ToolResult.raises e
          storeQueries := qaResp.sources.length, synthCalls := 1 }
  else
    { result := ToolResult.ok [ContentBlock.text qaResp.final_answer]
      storeQueries := qaResp.sources.length, synthCalls := 0 }

/-- `get_page_direct` branch of `call_tool` in
`src/mcp_cook_server_with_qa.py` (lines 178–216): exact-match fetch with
`limit=5`; on an empty result the short `No content found for page N`
message (no page-range sentence); otherwise `[<section>]\n<content>`
pieces (single newline) joined by the horizontal rule under a
`Page N:` header, followed by the image blocks. -/
def withQaGetPage (store : Store) (page_number : Int) : CallOutcome :=
  let objs := fetchByPage store page_number 5
  if objs.isEmpty then
    { result := ToolResult.ok [ContentBlock.text
        ("No content found for page " ++ toString page_number)]
      storeQueries := 1, synthCalls := 0 }
  else
    let page_content := objs.map (fun r => "[" ++ r.sect ++ "]\n" ++ r.content)
    { result := ToolResult.ok (ContentBlock.text
        ("Page " ++ toString page_number ++ ":\n\n" ++
          String.intercalate "\n\n---\n\n" page_content)
        :: resultImages objs)
      storeQueries := 1, synthCalls := 0 }

/-- `call_tool` dispatcher of `src/mcp_cook_server_with_qa.py`
(lines 72–218), ending in `raise ValueError(f"Unknown tool: {name}")`. -/
def withQaCallTool (fetchById : Nat → Option PageRecord) (qa : String → QaResponse)
    (store : Store) (synth : Synth) (name : String) (arguments : Arguments) : CallOutcome :=
  if name = "search_engineering_manual" then
    match arguments.query with
    | some q => withQaSearch fetchById qa synth q
    | none => { result := ToolResult.raises "KeyError: query", storeQueries := 0, synthCalls := 0 }
  else if name = "get_page_direct" then
    match arguments.page_number with
    | some n => withQaGetPage store n
    | none => { result := ToolResult.raises "KeyError: page_number", storeQueries := 0, synthCalls := 0 }
  else
    { result := ToolResult.raises ("Unknown tool: " ++ name)
      storeQueries := 0, synthCalls := 0 }

/-- Outcome of a tool function that returns a plain string
(`mcp_server_sse.py`, `mcp_server_oauth.py`), with effect counts. -/
structure StrOutcome where
  result : String
  storeQueries : Nat
  synthCalls : Nat
  deriving Repr, DecidableEq

/-- `search_engineering_manual` in `src/mcp_server_sse.py` (lines 49–141):
same retrieval and prompt as the plain stdio variant, but a synthesizer
exception becomes `"Error calling vision model: <msg>"` with no trailing
advice sentence, and the function returns a string. -/
def sseSearch (store : Store) (synth : Synth) (query : String) : StrOutcome :=
  let full_objects := nearText store query 5
  if full_objects.isEmpty then
    { result := sentinelNoResults, storeQueries := 1, synthCalls := 0 }
  else
    match synth (searchSynthCall query full_objects) with
    | Except.ok ans => { result := ans, storeQueries := 1, synthCalls := 1 }
    | Except.error e =>
        { result := "Error calling vision model: " ++ e
          storeQueries := 1, synthCalls := 1 }

/-- `get_page_direct` in `src/mcp_server_sse.py` (lines 144–171). -/
def sseGetPage (store : Store) (page_number : Int) : StrOutcome :=
  let objs := fetchByPage store page_number 10
  if objs.isEmpty then
    { result := "No content found for page " ++ toString page_number ++
        ". The manual contains pages 1-150."
      storeQueries := 1, synthCalls := 0 }
  else
    { result := "Content from Page " ++ toString page_number ++ ":\n\n" ++
        String.intercalate "\n\n---\n\n"
          (objs.map (fun r => "[" ++ r.sect ++ "]\n\n" ++ r.content))
      storeQueries := 1, synthCalls := 0 }

/-- Outcome of one HTTP request: status code, result payload (the string
under `"result"`, or the error detail), and effect counts. -/
structure HttpOutcome where
  status : Nat
  body : String
  storeQueries : Nat
  synthCalls : Nat
  deriving Repr, DecidableEq

/-- `api_search` REST endpoint in `src/mcp_server_sse.py` (lines 202–210):
`data.get("query", "")` substitutes the empty string when the key is
absent, then the tool function is called and its result wrapped as
`{"result": ...}` with status 200 (the tool function never raises, so the
`except` branch returning 500 is unreachable for a parsed body). -/
def sseApiSearch (store : Store) (synth : Synth) (data : Arguments) : HttpOutcome :=
  let query := data.query.getD ""
  let r := sseSearch store synth query
  { status := 200, body := r.result
    storeQueries := r.storeQueries, synthCalls := r.synthCalls }

/-- `api_get_page` REST endpoint in `src/mcp_server_sse.py`
(lines 212–218): `data.get("page_number", 1)` substitutes page 1 when the
key is absent. -/
def sseApiGetPage (store : Store) (data : Arguments) : HttpOutcome :=
  let page_number := data.page_number.getD 1
  let r := sseGetPage store page_number
  { status := 200, body := r.result
    storeQueries := r.storeQueries, synthCalls := 0 }

/-- `search_tool` POST handler in `src/mcp_server_authenticated.py`
(lines 136–223).  The `authorization` header parameter is declared but
never inspected — no call to `verify_clerk_session` occurs on this path.
`if not question:` rejects a missing or empty `query` with HTTP 400
before any store access; a synthesizer exception is re-raised as
`HTTPException(500, f"Error: {e}")`. -/
def authSearchTool (store : Store) (synth : Synth)
    (authorization : Option String) (body : Arguments) : HttpOutcome :=
  match body.query with
  | none =>
      { status := 400, body := "Missing 'query' parameter"
        storeQueries := 0, synthCalls := 0 }
  | some question =>
    if question = "" then
      { status := 400, body := "Missing 'query' parameter"
        storeQueries := 0, synthCalls := 0 }
    else
      let full_objects := nearText store question 5
      if full_objects.isEmpty then
        { status := 200, body := sentinelNoResults
          storeQueries := 1, synthCalls := 0 }
      else
        match synth (searchSynthCall question full_objects) with
        | Except.ok ans =>
            { status := 200, body := ans, storeQueries := 1, synthCalls := 1 }
        | Except.error e =>
            { status := 500, body := "Error: " ++ e
              storeQueries := 1, synthCalls := 1 }

/-- `get_page_tool` POST handler in `src/mcp_server_authenticated.py`
(lines 225–250): `if not page_number:` rejects a missing or zero
`page_number` with HTTP 400; otherwise the same lookup and rendering as
the plain stdio variant, returned as `{"result": ...}`.  As in
`search_tool`, the `authorization` header is never verified. -/
def authGetPageTool (store : Store)
    (authorization : Option String) (body : Arguments) : HttpOutcome :=
  match body.page_number with
  | none =>
      { status := 400, body := "Missing 'page_number' parameter"
        storeQueries := 0, synthCalls := 0 }
  | some page_number =>
    if page_number = 0 then
      { status := 400, body := "Missing 'page_number' parameter"
        storeQueries := 0, synthCalls := 0 }
    else
      let objs := fetchByPage store page_number 10
      if objs.isEmpty then
        { status := 200
          body := "No content found for page " ++ toString page_number ++
            ". The manual contains pages 1-150."
          storeQueries := 1, synthCalls := 0 }
      else
        { status := 200
          body := "Content from Page " ++ toString page_number ++ ":\n\n" ++
            String.intercalate "\n\n---\n\n"
              (objs.map (fun r => "[" ++ r.sect ++ "]\n\n" ++ r.content))
          storeQueries := 1, synthCalls := 0 }

/-- `ClerkTokenVerifier.verify_token` in `src/mcp_server_oauth.py`
(lines 64–96): the identity provider (an external service, given here as a
function from the token to either a transport error or a status code and
optional user id) is consulted; only an HTTP 200 answer yields an accepted
token (the verified user id, defaulting to `"unknown"`), any other status
or exception yields `none` (rejection). -/
def verifyToken (idp : String → Except String (Nat × Option String))
    (token : String) : Option String :=
  match idp token with
  | Except.ok (status, userId) =>
      if status = 200 then some (userId.getD "unknown") else none
  | Except.error _ => none

/-- `search_engineering_manual` in `src/mcp_server_oauth.py`
(lines 112–202): same retrieval and prompt as the non-QA variants, but the
whole body sits in one `try`, whose handler returns
`"Error searching manual: <msg>"`. -/
def oauthSearch (store : Store) (synth : Synth) (query : String) : StrOutcome :=
  let full_objects := nearText store query 5
  if full_objects.isEmpty then
    { result := sentinelNoResults, storeQueries := 1, synthCalls := 0 }
  else
    match synth (searchSynthCall query full_objects) with
    | Except.ok ans => { result := ans, storeQueries := 1, synthCalls := 1 }
    | Except.error e =>
        { result := "Error searching manual: " ++ e
          storeQueries := 1, synthCalls := 1 }

/-- `get_page_direct` in `src/mcp_server_oauth.py` (lines 206–238): same
lookup and rendering as the SSE variant (the surrounding `try` only
matters for store failures, which the store model does not produce). -/
def oauthGetPage (store : Store) (page_number : Int) : StrOutcome :=
  let objs := fetchByPage store page_number 10
  if objs.isEmpty then
    { result := "No content found for page " ++ toString page_number ++
        ". The manual contains pages 1-150."
      storeQueries := 1, synthCalls := 0 }
  else
    { result := "Content from Page " ++ toString page_number ++ ":\n\n" ++
        String.intercalate "\n\n---\n\n"
          (objs.map (fun r => "[" ++ r.sect ++ "]\n\n" ++ r.content))
      storeQueries := 1, synthCalls := 0 }

/-! Concrete fixtures used by witnesses and counterexamples. -/

/-- A record carrying a critical visual (a wind-zone map chunk). -/
def recVis : PageRecord :=
  { content := "MAPBODY", sect := "Wind", page := 12, content_type := "chart"
    has_critical_visual := true, visual_content := "IMGA", visual_description := "map" }

/-- A plain text record with no visual. -/
def recTxt : PageRecord :=
  { content := "TEXTBODY", sect := "Duct", page := 3, content_type := "text"
    has_critical_visual := false, visual_content := "", visual_description := "" }

/-- A store whose similarity ranking always returns the single visual
record and whose page index is empty. -/
def storeOne : Store := ⟨fun _ => [recVis], fun _ => []⟩

/-- The empty store. -/
def storeEmpty : Store := ⟨fun _ => [], fun _ => []⟩

/-- A store holding two records on page 7 and nothing else. -/
def storeP7 : Store := ⟨fun _ => [], fun n => if n = 7 then [recVis, recTxt] else []⟩

/-- A synthesizer that always answers `"ANSWER"`. -/
def synthOkA : Synth := fun _ => Except.ok "ANSWER"

/-- A synthesizer whose call always raises `"boom"`. -/
def synthFail : Synth := fun _ => Except.error "boom"

/-- C2: for every query on which the nearest-neighbor retrieval returns
zero records, every nearest-neighbor search variant returns exactly the
fixed sentinel string and never invokes the Answer Synthesizer (for the
authenticated variant the query must be non-empty, or the request is
rejected with 400 before retrieval). -/
theorem search_empty_retrieval_sentinel (store : Store) (synth : Synth) (q : String)
    (h : store.rank q = []) :
    cookSearch store synth q =
      { result := ToolResult.ok [ContentBlock.text sentinelNoResults]
        storeQueries := 1, synthCalls := 0 } ∧
    sseSearch store synth q =
      { result := sentinelNoResults, storeQueries := 1, synthCalls := 0 } ∧
    oauthSearch store synth q =
      { result := sentinelNoResults, storeQueries := 1, synthCalls := 0 } ∧
    (q ≠ "" → ∀ auth pn, authSearchTool store synth auth { query := some q, page_number := pn } =
      { status := 200, body := sentinelNoResults, storeQueries := 1, synthCalls := 0 }) := by
  have hn : nearText store q 5 = [] := by simp [nearText, h]
  refine ⟨?_, ?_, ?_, ?_⟩
  · simp [cookSearch, hn]
  · simp [sseSearch, hn]
  · simp [oauthSearch, hn]
  · intro hq auth pn
    simp [authSearchTool, hq, hn]

/-- C2 witness: the sentinel behaviour at the empty store. -/
theorem search_empty_retrieval_sentinel_witness :
    storeEmpty.rank "no match" = [] ∧
    cookSearch storeEmpty synthOkA "no match" =
      { result := ToolResult.ok [ContentBlock.text sentinelNoResults]
        storeQueries := 1, synthCalls := 0 } :=
  ⟨rfl, (search_empty_retrieval_sentinel storeEmpty synthOkA "no match" rfl).1⟩

/-- C4: evaluation of the authenticated variant at the failing input — a
request with no `Authorization` header (`authorization = none`) is not
rejected: `search_tool` never consults `verify_clerk_session`, issues the
document-store query and the Answer-Synthesizer call, and answers
HTTP 200, contradicting the claimed 401-before-any-call behaviour. -/
theorem authSearchTool_ignores_missing_auth :
    authSearchTool storeOne synthOkA none { query := some "wind zones", page_number := none } =
      { status := 200, body := "ANSWER", storeQueries := 1, synthCalls := 1 } := by
  decide

/-- C9: no `get_page` variant ever invokes the Answer Synthesizer, for any
store, page number, header and body — the operation is a direct
passthrough of stored content. -/
theorem getPage_never_calls_synth (store : Store) (n : Int)
    (auth : Option String) (body : Arguments) :
    (cookGetPage store n).synthCalls = 0 ∧
    (withQaGetPage store n).synthCalls = 0 ∧
    (sseGetPage store n).synthCalls = 0 ∧
    (sseApiGetPage store body).synthCalls = 0 ∧
    (authGetPageTool store auth body).synthCalls = 0 ∧
    (oauthGetPage store n).synthCalls = 0 := by
  refine ⟨?_, ?_, ?_, ?_, ?_, ?_⟩ <;>
    simp only [cookGetPage, withQaGetPage, sseGetPage, sseApiGetPage,
      authGetPageTool, oauthGetPage] <;>
    (repeat' split) <;> rfl

/-- C10: for every tool name other than the two registered ones, both
stdio dispatchers raise `ValueError(f"Unknown tool: {name}")` — a message
that contains the offending name — without touching the document store or
the Answer Synthesizer. -/
theorem callTool_unknown_name_raises (store : Store) (synth : Synth)
    (fetchById : Nat → Option PageRecord) (qa : String → QaResponse)
    (name : String) (args : Arguments)
    (h1 : name ≠ "search_engineering_manual") (h2 : name ≠ "get_page_direct") :
    cookCallTool store synth name args =
      { result := ToolResult.raises ("Unknown tool: " ++ name)
        storeQueries := 0, synthCalls := 0 } ∧
    withQaCallTool fetchById qa store synth name args =
      { result := ToolResult.raises ("Unknown tool: " ++ name)
        storeQueries := 0, synthCalls := 0 } ∧
    (∃ pre, "Unknown tool: " ++ name = pre ++ name) := by
  refine ⟨?_, ?_, ⟨"Unknown tool: ", rfl⟩⟩
  · simp [cookCallTool, h1, h2]
  · simp [withQaCallTool, h1, h2]

/-- C10 witness: the dispatchers at the concrete unknown name `"foo"`. -/
theorem callTool_unknown_name_raises_witness :
    "foo" ≠ "search_engineering_manual" ∧ "foo" ≠ "get_page_direct" ∧
    cookCallTool storeEmpty synthOkA "foo" { query := none, page_number := none } =
      { result := ToolResult.raises ("Unknown tool: " ++ "foo")
        storeQueries := 0, synthCalls := 0 } :=
  ⟨by decide, by decide,
    (callTool_unknown_name_raises storeEmpty synthOkA (fun _ => none)
      (fun _ => ⟨[], ""⟩) "foo" { query := none, page_number := none }
      (by decide) (by decide)).1⟩

/-- `pySlice` keeps at most `n` characters. -/
theorem pySlice_length_le (s : String) (n : Nat) : (pySlice s n).length ≤ n := by
  show (s.data.take n).length ≤ n
  exact List.length_take_le n s.data

/-- `pySlice s n` is an initial segment of `s`. -/
theorem pySlice_append_drop (s : String) (n : Nat) :
    pySlice s n ++ String.mk (s.data.drop n) = s := by
  cases s with
  | mk data =>
    show String.mk (data.take n ++ data.drop n) = String.mk data
    rw [List.take_append_drop]

/-- C5: for every search, the supporting-context block has one fragment
per matched record (and at most 5 records are matched, the retrieval
being issued with `limit=5`), fragments appear in match order, and each
fragment is `[<section> - Page <page>]`, a newline, at most the first 500
characters of the record's content, and a literal ellipsis.  `textContext`
is the very list spliced into `searchUserText`, the text part of the
prompt assembled by the four non-QA search variants. -/
theorem search_context_fragments (store : Store) (q : String)
    (r : PageRecord) (hr : r ∈ nearText store q 5)
    (i : Nat) (hi : i < (nearText store q 5).length)
    (h2 : i < (textContext (nearText store q 5)).length) :
    (textContext (nearText store q 5)).length = (nearText store q 5).length ∧
    (nearText store q 5).length ≤ 5 ∧
    (textContext (nearText store q 5))[i] =
      contextFragment ((nearText store q 5)[i]) ∧
    (∃ c : String,
      contextFragment r =
        "[" ++ r.sect ++ " - Page " ++ toString r.page ++ "]\n" ++ c ++ "..." ∧
      c.length ≤ 500 ∧ ∃ d, c ++ d = r.content) := by
  refine ⟨by simp [textContext], ?_, ?_, ?_⟩
  · exact List.length_take_le 5 (store.rank q)
  · simp [textContext]
  · exact ⟨pySlice r.content 500, by simp [contextFragment, String.append_assoc],
      pySlice_length_le r.content 500,
      String.mk (r.content.data.drop 500), pySlice_append_drop r.content 500⟩

/-- C5 witness: the fragment shape at a concrete one-record retrieval. -/
theorem search_context_fragments_witness :
    recVis ∈ nearText storeOne "q" 5 ∧
    0 < (nearText storeOne "q" 5).length ∧
    0 < (textContext (nearText storeOne "q" 5)).length ∧
    (textContext (nearText storeOne "q" 5)).length = (nearText storeOne "q" 5).length :=
  ⟨by decide, by decide, by decide,
    (search_context_fragments storeOne "q" recVis (by decide) 0 (by decide) (by decide)).1⟩

/-- C1 (counterexample): in `src/mcp_cook_server.py` a successful search —
one matched record with `has_critical_visual = true`, synthesizer answer
`"ANSWER"` — returns one text block and no image block at all: the `return`
at line 191 sends back only `[TextContent(...)]`, while the claim requires
the text block to be followed by one image block per flagged record. -/
theorem cookSearch_returns_text_only :
    (cookSearch storeOne synthOkA "q").result =
      ToolResult.ok [ContentBlock.text "ANSWER"] ∧
    (cookSearch storeOne synthOkA "q").result ≠
      ToolResult.ok (ContentBlock.text "ANSWER" ::
        resultImages (nearText storeOne "q" 5)) := by
  decide

/-- C1 (amended): the claimed result shape holds in the QA stdio variant
(`mcp_cook_server_with_qa.py`): when some fetched record carries a
critical visual and the synthesizer answers, the result is the answer
text block followed by exactly one image block per flagged record, in
match order, not deduplicated, each carrying the record's stored
`visual_content`; the plain stdio variant (`mcp_cook_server.py`) instead
returns only the answer text block. -/
theorem search_result_block_shape
    (fetchById : Nat → Option PageRecord) (qa : String → QaResponse)
    (synth : Synth) (store : Store) (query q ans ansC : String)
    (himg : (((qa query).sources.filterMap fetchById).any
      (fun r => r.has_critical_visual)) = true)
    (hok : synth (withQaSynthCall query (qa query).final_answer
      ((qa query).sources.filterMap fetchById)) = Except.ok ans)
    (hne : nearText store q 5 ≠ [])
    (hokC : synth (searchSynthCall q (nearText store q 5)) = Except.ok ansC) :
    (withQaSearch fetchById qa synth query).result =
      ToolResult.ok (ContentBlock.text ans ::
        ((((qa query).sources.filterMap fetchById).filter
            (fun r => r.has_critical_visual)).map
          (fun r => ContentBlock.image r.visual_content "image/png"))) ∧
    (cookSearch store synth q).result = ToolResult.ok [ContentBlock.text ansC] := by
  constructor
  · simp [withQaSearch, himg, hok, resultImages]
  · have hf : (nearText store q 5).isEmpty = false := by
      simpa [List.isEmpty_iff] using hne
    simp [cookSearch, hf, hokC]

/-- C1 amended witness: concrete QA search returning the text block then
the flagged record's image, and concrete plain-stdio search returning the
text block only. -/
theorem search_result_block_shape_witness :
    ((QaResponse.mk [0] "QA").sources.filterMap (fun _ => some recVis)).any
      (fun r => r.has_critical_visual) = true ∧
    (withQaSearch (fun _ => some recVis) (fun _ => QaResponse.mk [0] "QA")
        synthOkA "q").result =
      ToolResult.ok [ContentBlock.text "ANSWER",
        ContentBlock.image "IMGA" "image/png"] :=
  ⟨by decide,
    by
      have h := (search_result_block_shape (fun _ => some recVis)
        (fun _ => QaResponse.mk [0] "QA") synthOkA storeOne "q" "q"
        "ANSWER" "ANSWER" (by decide) rfl (by decide) rfl).1
      simpa using h⟩

/-- C3 (counterexample): in the authenticated HTTP variant a synthesizer
exception (message `"boom"`) is re-raised as `HTTPException(500, "Error:
boom")`: the status is 500, not 200, and the payload does not begin with
`"Error calling vision model:"`. -/
theorem authSearchTool_synth_failure_is_500 :
    authSearchTool storeOne synthFail none
        { query := some "q", page_number := none } =
      { status := 500, body := "Error: boom", storeQueries := 1, synthCalls := 1 } ∧
    (500 ≠ 200) ∧
    "Error: boom" ≠ "Error calling vision model: boom" := by
  refine ⟨by decide, by decide, by decide⟩

/-- C3 (amended): when the synthesizer call raises, the plain stdio
variant returns a text block beginning `"Error calling vision model:"`
(with a trailing advice sentence) and the SSE variant returns exactly
`"Error calling vision model: <msg>"` — its REST endpoint with HTTP
status 200 and that string as the result payload; the authenticated
variant instead raises HTTP 500 with `"Error: <msg>"`, and the OAuth
variant returns `"Error searching manual: <msg>"`. -/
theorem search_synth_failure_results (store : Store) (synth : Synth) (q e : String)
    (hne : nearText store q 5 ≠ [])
    (hfail : synth (searchSynthCall q (nearText store q 5)) = Except.error e) :
    (cookSearch store synth q).result = ToolResult.ok
      [ContentBlock.text ("Error calling vision model: " ++ e ++
        "\n\nPlease check your OpenAI API key and connection.")] ∧
    sseApiSearch store synth { query := some q, page_number := none } =
      { status := 200, body := "Error calling vision model: " ++ e
        storeQueries := 1, synthCalls := 1 } ∧
    (q ≠ "" → authSearchTool store synth none { query := some q, page_number := none } =
      { status := 500, body := "Error: " ++ e, storeQueries := 1, synthCalls := 1 }) ∧
    oauthSearch store synth q =
      { result := "Error searching manual: " ++ e
        storeQueries := 1, synthCalls := 1 } := by
  have hf : (nearText store q 5).isEmpty = false := by
    simpa [List.isEmpty_iff] using hne
  refine ⟨?_, ?_, ?_, ?_⟩
  · simp [cookSearch, hf, hfail]
  · simp [sseApiSearch, sseSearch, hf, hfail]
  · intro hq
    simp [authSearchTool, hq, hf, hfail]
  · simp [oauthSearch, hf, hfail]

/-- C3 amended witness: the four failure shapes at the concrete failing
synthesizer. -/
theorem search_synth_failure_results_witness :
    nearText storeOne "q" 5 ≠ [] ∧
    sseApiSearch storeOne synthFail { query := some "q", page_number := none } =
      { status := 200, body := "Error calling vision model: boom"
        storeQueries := 1, synthCalls := 1 } :=
  ⟨by decide,
    by
      have h := (search_synth_failure_results storeOne synthFail "q" "boom"
        (by decide) rfl).2.1
      simpa using h⟩

/-- C6 (counterexample): `get_page_direct` in the QA stdio variant at page
999 with no matching record returns `"No content found for page 999"` —
without the required trailing sentence `". The manual contains pages
1-150."`. -/
theorem withQaGetPage_short_message :
    (withQaGetPage storeEmpty 999).result =
      ToolResult.ok [ContentBlock.text "No content found for page 999"] ∧
    "No content found for page 999" ≠
      "No content found for page 999. The manual contains pages 1-150." := by
  refine ⟨by decide, by decide⟩

/-- C6 (amended): for every page number with zero matching records, the
plain stdio, SSE, authenticated (for a non-zero page number) and OAuth
variants return exactly `"No content found for page <N>. The manual
contains pages 1-150."`; the QA stdio variant returns only
`"No content found for page <N>"`, without the page-range sentence. -/
theorem getPage_no_match_message (store : Store) (n : Int) (auth : Option String)
    (h : store.byPage n = []) :
    (cookGetPage store n).result = ToolResult.ok [ContentBlock.text
      ("No content found for page " ++ toString n ++
        ". The manual contains pages 1-150.")] ∧
    (sseGetPage store n).result =
      "No content found for page " ++ toString n ++
        ". The manual contains pages 1-150." ∧
    (n ≠ 0 → authGetPageTool store auth { query := none, page_number := some n } =
      { status := 200
        body := "No content found for page " ++ toString n ++
          ". The manual contains pages 1-150."
        storeQueries := 1, synthCalls := 0 }) ∧
    (oauthGetPage store n).result =
      "No content found for page " ++ toString n ++
        ". The manual contains pages 1-150." ∧
    (withQaGetPage store n).result = ToolResult.ok [ContentBlock.text
      ("No content found for page " ++ toString n)] := by
  have h10 : fetchByPage store n 10 = [] := by simp [fetchByPage, h]
  have h5 : fetchByPage store n 5 = [] := by simp [fetchByPage, h]
  refine ⟨?_, ?_, ?_, ?_, ?_⟩
  · simp [cookGetPage, h10]
  · simp [sseGetPage, h10]
  · intro hn
    simp [authGetPageTool, hn, h10]
  · simp [oauthGetPage, h10]
  · simp [withQaGetPage, h5]

/-- C6 amended witness: the two message shapes at the empty store and
page 999. -/
theorem getPage_no_match_message_witness :
    storeEmpty.byPage 999 = [] ∧
    (cookGetPage storeEmpty 999).result = ToolResult.ok [ContentBlock.text
      "No content found for page 999. The manual contains pages 1-150."] :=
  ⟨rfl, by
    have h := (getPage_no_match_message storeEmpty 999 none rfl).1
    simpa using h⟩

/-- C7 (counterexample): the QA stdio variant renders a matched record as
`[<section>]\n<content>` — a single newline, no blank line: at the
concrete two-record page 7 the returned text differs from the rendering
the claim requires. -/
theorem withQaGetPage_no_blank_line :
    (withQaGetPage storeP7 7).result =
      ToolResult.ok [ContentBlock.text
        "Page 7:\n\n[Wind]\nMAPBODY\n\n---\n\n[Duct]\nTEXTBODY",
        ContentBlock.image "IMGA" "image/png"] ∧
    "Page 7:\n\n[Wind]\nMAPBODY\n\n---\n\n[Duct]\nTEXTBODY" ≠
      "Page 7:\n\n" ++ String.intercalate "\n\n---\n\n"
        ((fetchByPage storeP7 7 5).map
          (fun r => "[" ++ r.sect ++ "]\n\n" ++ r.content)) := by
  refine ⟨by decide, by decide⟩

/-- C7 (amended): when at least one record matches, the plain stdio, SSE,
authenticated (non-zero page) and OAuth variants return
`Content from Page <N>:` followed by the records rendered as
`[<section>]\n\n<content>` (blank line) joined by `\n\n---\n\n`, in store
result order; the QA stdio variant uses a `Page <N>:` header and renders
each record as `[<section>]\n<content>`, with a single newline. -/
theorem getPage_match_rendering (store : Store) (n : Int) (auth : Option String)
    (h10 : fetchByPage store n 10 ≠ []) (h5 : fetchByPage store n 5 ≠ [])
    (hn : n ≠ 0) :
    (cookGetPage store n).result = ToolResult.ok (ContentBlock.text
      ("Content from Page " ++ toString n ++ ":\n\n" ++
        String.intercalate "\n\n---\n\n"
          ((fetchByPage store n 10).map
            (fun r => "[" ++ r.sect ++ "]\n\n" ++ r.content)))
      :: resultImages (fetchByPage store n 10)) ∧
    (sseGetPage store n).result =
      "Content from Page " ++ toString n ++ ":\n\n" ++
        String.intercalate "\n\n---\n\n"
          ((fetchByPage store n 10).map
            (fun r => "[" ++ r.sect ++ "]\n\n" ++ r.content)) ∧
    authGetPageTool store auth { query := none, page_number := some n } =
      { status := 200
        body := "Content from Page " ++ toString n ++ ":\n\n" ++
          String.intercalate "\n\n---\n\n"
            ((fetchByPage store n 10).map
              (fun r => "[" ++ r.sect ++ "]\n\n" ++ r.content))
        storeQueries := 1, synthCalls := 0 } ∧
    (oauthGetPage store n).result =
      "Content from Page " ++ toString n ++ ":\n\n" ++
        String.intercalate "\n\n---\n\n"
          ((fetchByPage store n 10).map
            (fun r => "[" ++ r.sect ++ "]\n\n" ++ r.content)) ∧
    (withQaGetPage store n).result = ToolResult.ok (ContentBlock.text
      ("Page " ++ toString n ++ ":\n\n" ++
        String.intercalate "\n\n---\n\n"
          ((fetchByPage store n 5).map
            (fun r => "[" ++ r.sect ++ "]\n" ++ r.content)))
      :: resultImages (fetchByPage store n 5)) := by
  have hf10 : (fetchByPage store n 10).isEmpty = false := by
    simpa [List.isEmpty_iff] using h10
  have hf5 : (fetchByPage store n 5).isEmpty = false := by
    simpa [List.isEmpty_iff] using h5
  refine ⟨?_, ?_, ?_, ?_, ?_⟩
  · simp [cookGetPage, hf10, resultImages]
  · simp [sseGetPage, hf10]
  · simp [authGetPageTool, hn, hf10]
  · simp [oauthGetPage, hf10]
  · simp [withQaGetPage, hf5, resultImages]

/-- C7 amended witness: the two renderings at the concrete page-7 store. -/
theorem getPage_match_rendering_witness :
    fetchByPage storeP7 7 10 ≠ [] ∧ fetchByPage storeP7 7 5 ≠ [] ∧ (7 : Int) ≠ 0 ∧
    (cookGetPage storeP7 7).result = ToolResult.ok (ContentBlock.text
      ("Content from Page " ++ toString (7 : Int) ++ ":\n\n" ++
        String.intercalate "\n\n---\n\n"
          ((fetchByPage storeP7 7 10).map
            (fun r => "[" ++ r.sect ++ "]\n\n" ++ r.content)))
      :: resultImages (fetchByPage storeP7 7 10)) :=
  ⟨by decide, by decide, by decide,
    (getPage_match_rendering storeP7 7 none (by decide) (by decide) (by decide)).1⟩

/-- C8 (counterexample): the SSE REST endpoint `api_search`, on a JSON
body with no `"query"` key, substitutes the empty string, queries the
document store, calls the synthesizer and answers HTTP 200 — not the
claimed HTTP 400 with no store call. -/
theorem sseApiSearch_missing_query_is_200 :
    sseApiSearch storeOne synthOkA { query := none, page_number := none } =
      { status := 200, body := "ANSWER", storeQueries := 1, synthCalls := 1 } ∧
    (200 ≠ 400) := by
  refine ⟨by decide, by decide⟩

/-- C8 (amended): a missing required argument yields HTTP 400 with no
store or synthesizer call in the authenticated variant only; the SSE REST
endpoints instead substitute defaults (`query = ""`, `page_number = 1`),
always query the store and always answer HTTP 200. -/
theorem missing_argument_handling (store : Store) (synth : Synth)
    (auth : Option String) (pn : Option Int) (qopt : Option String) :
    authSearchTool store synth auth { query := none, page_number := pn } =
      { status := 400, body := "Missing 'query' parameter"
        storeQueries := 0, synthCalls := 0 } ∧
    authGetPageTool store auth { query := qopt, page_number := none } =
      { status := 400, body := "Missing 'page_number' parameter"
        storeQueries := 0, synthCalls := 0 } ∧
    sseApiSearch store synth { query := none, page_number := pn } =
      sseApiSearch store synth { query := some "", page_number := pn } ∧
    (sseApiSearch store synth { query := none, page_number := pn }).status = 200 ∧
    (sseApiSearch store synth { query := none, page_number := pn }).storeQueries = 1 ∧
    sseApiGetPage store { query := qopt, page_number := none } =
      sseApiGetPage store { query := qopt, page_number := some 1 } ∧
    (sseApiGetPage store { query := qopt, page_number := none }).status = 200 ∧
    (sseApiGetPage store { query := qopt, page_number := none }).storeQueries = 1 := by
  refine ⟨rfl, rfl, rfl, ?_, ?_, rfl, ?_, ?_⟩ <;>
    simp only [sseApiSearch, sseApiGetPage, sseSearch, sseGetPage] <;>
    (repeat' split) <;> rfl
